import Mathlib

/-!
Verification of the line-oriented geospatial point-data query and gridding
engine described by the repository's specification.  The repository itself
ships only a demonstration notebook that calls the external `geophys_utils`
library (`get_spatial_mask`, `get_line_masks`, `get_lines`, `coords2metres`,
`utm_grid_points`, `get_coordinate_transformation`).  The definitions below
are shallow models of the corresponding contracts in the specification
(sections 3, 4.1-4.5, 7, 8), except for the coordinate reference
transformer: the notebook's stored error traceback quotes the library's own
`_crs_utils.py` (`get_coordinate_transformation`, lines 123-127, and
`transform_coords`, lines 175-179) verbatim, and those definitions are
translated from that visible source.  Coordinate scalars are modelled as
exact rationals; the Euclidean metric appears only in theorem statements,
over the reals.
-/

/-- Transform failures: `transformError` and `dimensionError` are the
error kinds named by spec section 4.1; `attributeError` models the
unhandled Python `AttributeError` recorded in the notebook's traceback
(`from_spatial_ref.ExportToWkt()` evaluated on `None` at `_crs_utils.py`
line 125). -/
inductive TransformErr where
  | transformError : TransformErr
  | dimensionError : TransformErr
  | attributeError : TransformErr
deriving DecidableEq

/-- Modelled from the spec: two reference systems are equivalent iff both
resolve and their canonical representations match (section 3,
"ReferenceSystem").  `resolve` is the external reference-system resolver of
section 6; an unresolvable system is never equivalent to anything. -/
def equivalentSys (resolve : String → Option String) (a b : String) : Bool :=
  match resolve a, resolve b with
  | some ca, some cb => ca == cb
  | _, _ => false

/-- Modelled from the spec: a coordinate array has valid dimensions iff it is
of shape (N,2) or (N,3) (section 4.1). -/
def validDims (coords : List (List ℚ)) : Bool :=
  coords.all (fun c => c.length == 2) || coords.all (fun c => c.length == 3)

/-- Translated from the source visible in the notebook's stored traceback
(`_crs_utils.py` lines 123-127, `get_coordinate_transformation`): when the
target spatial reference is unresolved (`not to_spatial_ref`) or the two
canonical representations match, the function returns `None` — one shared
no-transform sentinel, here `Except.ok none`.  When the target resolves
but the source does not, `from_spatial_ref.ExportToWkt()` is evaluated on
`None` and the call crashes with an `AttributeError` (the crash recorded
in the notebook).  Otherwise a coordinate transformation is produced,
modelled by the external projection `proj`. -/
def get_coordinate_transformation (resolve : String → Option String)
    (proj : List ℚ → List ℚ) (fromSys toSys : String) :
    Except TransformErr (Option (List ℚ → List ℚ)) :=
  match resolve toSys with
  | none => Except.ok none
  | some ct =>
    match resolve fromSys with
    | none => Except.error TransformErr.attributeError
    | some cf => if cf == ct then Except.ok none else Except.ok (some proj)

/-- Translated from the source visible in the notebook's stored traceback
(`_crs_utils.py` lines 175-179, `transform_coords`): obtains the
coordinate transformation and copies the coordinates into a fresh array;
the `None` sentinel means the copied input is returned unchanged, and a
produced transformation is applied pointwise.  The dimension check is
modelled from spec section 4.1 (shape (N,2) or (N,3)). -/
def transform (resolve : String → Option String) (proj : List ℚ → List ℚ)
    (coords : List (List ℚ)) (fromSys toSys : String) :
    Except TransformErr (List (List ℚ)) :=
  match get_coordinate_transformation resolve proj fromSys toSys with
  | Except.error e => Except.error e
  | Except.ok none => Except.ok coords
  | Except.ok (some p) =>
    if validDims coords then Except.ok (coords.map p)
    else Except.error TransformErr.dimensionError

/-- Modelled from the spec: a transform request whose target system is
unspecified defaults the target to the dataset's native system (section
4.1). -/
def transformToDefault (resolve : String → Option String)
    (proj : List ℚ → List ℚ) (native : String) (coords : List (List ℚ))
    (fromSys : String) (toSys : Option String) :
    Except TransformErr (List (List ℚ)) :=
  transform resolve proj coords fromSys (toSys.getD native)

/-- Modelled from the spec: an axis-aligned bounding box
`(xmin, ymin, xmax, ymax)` in a stated reference system (section 3). -/
structure BoundingBox where
  xmin : ℚ
  ymin : ℚ
  xmax : ℚ
  ymax : ℚ
deriving DecidableEq

/-- Membership of a native coordinate in a bounding box, inclusive on all
four edges (spec section 4.2). -/
def inBox (b : BoundingBox) (p : ℚ × ℚ) : Prop :=
  b.xmin ≤ p.1 ∧ p.1 ≤ b.xmax ∧ b.ymin ≤ p.2 ∧ p.2 ≤ b.ymax

instance (b : BoundingBox) (p : ℚ × ℚ) : Decidable (inBox b p) := by
  unfold inBox; infer_instance

/-- Modelled from the spec: the point dataset of section 3 — an ordered
sequence of native 2-D coordinates together with equally long named
attribute arrays and the dataset's native reference system identifier. -/
structure PointDataset where
  coords : List (ℚ × ℚ)
  attributes : List (String × List ℚ)
  native : String

/-- Modelled from the spec: the spatial mask engine of section 4.2 for
bounds already expressed in the dataset's native system: entry i is true
iff point i lies inside the box, inclusive on all edges.  A pure function;
the dataset is read-only. -/
def get_spatial_mask (d : PointDataset) (b : BoundingBox) : List Bool :=
  d.coords.map (fun p => decide (inBox b p))

/-- Computable minimum of two rationals. -/
def minQ (a b : ℚ) : ℚ := if a ≤ b then a else b

/-- Computable maximum of two rationals. -/
def maxQ (a b : ℚ) : ℚ := if a ≤ b then b else a

/-- Full native extent of a nonempty coordinate list (empty lists get a
degenerate box).  Used for the spec's "bounds equal to the dataset's full
native extent" (section 8). -/
def coordsExtent (ps : List (ℚ × ℚ)) : BoundingBox :=
  match ps with
  | [] => ⟨0, 0, 0, 0⟩
  | p :: rest =>
    ⟨rest.foldr (fun q m => minQ q.1 m) p.1,
     rest.foldr (fun q m => minQ q.2 m) p.2,
     rest.foldr (fun q m => maxQ q.1 m) p.1,
     rest.foldr (fun q m => maxQ q.2 m) p.2⟩

/-- Full native extent of a dataset's coordinates. -/
def datasetExtent (d : PointDataset) : BoundingBox := coordsExtent d.coords

/-- Modelled from the spec: the line segmentation index of section 3 — a
mapping from integer line number to a contiguous index range
`[start, stop)` into the point dataset. -/
abbrev LineIndex := List (ℤ × ℕ × ℕ)

/-- Line numbers present in a line index. -/
def lineKeys (idx : LineIndex) : List ℤ := idx.map (fun e => e.1)

/-- Index range recorded for a line number, if present. -/
def rangeOf (idx : LineIndex) (n : ℤ) : Option (ℕ × ℕ) :=
  (idx.find? (fun e => e.1 == n)).map (fun e => e.2)

/-- Modelled from the spec: the `line_numbers` argument of `get_lines` /
`get_line_masks` — absent (all indexed lines), a single scalar line number,
or a list of line numbers (section 4.3 and the notebook's
`get_lines(line_numbers=100060)` call). -/
inductive LineNumbersArg where
  | all : LineNumbersArg
  | scalar : ℤ → LineNumbersArg
  | list : List ℤ → LineNumbersArg

/-- Line numbers denoted by a `LineNumbersArg`. -/
def requestedNumbers (idx : LineIndex) : LineNumbersArg → List ℤ
  | LineNumbersArg.all => lineKeys idx
  | LineNumbersArg.scalar n => [n]
  | LineNumbersArg.list l => l

/-- Requested line numbers that exist in the index, deduplicated and put in
ascending order (spec section 4.3: one entry per requested indexed line, in
ascending line-number order; unknown numbers are dropped, not errors). -/
def presentSorted (idx : LineIndex) (arg : LineNumbersArg) : List ℤ :=
  List.insertionSort (fun a b => a ≤ b)
    ((requestedNumbers idx arg).filter (fun n => decide (n ∈ lineKeys idx))).dedup

/-- Boolean mask (length `n`) selecting the index range `[r.1, r.2)`. -/
def lineMask (n : ℕ) (r : ℕ × ℕ) : List Bool :=
  (List.range n).map (fun i => decide (r.1 ≤ i ∧ i < r.2))

/-- Modelled from the spec: `get_line_masks` of section 4.3 — one
`(line_number, mask)` pair per requested line number present in the index,
in ascending line-number order.  The result is a finite list, hence
restartable. -/
def get_line_masks (d : PointDataset) (idx : LineIndex)
    (arg : LineNumbersArg) : List (ℤ × List Bool) :=
  (presentSorted idx arg).map
    (fun n => (n, lineMask d.coords.length ((rangeOf idx n).getD (0, 0))))

/-- Modelled from the spec: a per-line record — the coordinate subsequence
and every attribute subsequence restricted to the line's index range, in
original point order (section 4.3). -/
structure LineRecord where
  coordinates : List (ℚ × ℚ)
  attributes : List (String × List ℚ)
deriving DecidableEq

/-- Record of the slice `[r.1, r.2)` of a dataset. -/
def sliceRecord (d : PointDataset) (r : ℕ × ℕ) : LineRecord :=
  { coordinates := (d.coords.drop r.1).take (r.2 - r.1),
    attributes := d.attributes.map (fun a => (a.1, (a.2.drop r.1).take (r.2 - r.1))) }

/-- Modelled from the spec: `get_lines` of section 4.3 — one
`(line_number, record)` pair per requested line number present in the
index, in ascending line-number order. -/
def get_lines (d : PointDataset) (idx : LineIndex)
    (arg : LineNumbersArg) : List (ℤ × LineRecord) :=
  (presentSorted idx arg).map
    (fun n => (n, sliceRecord d ((rangeOf idx n).getD (0, 0))))

/-- Cumulative sums of successive distances, starting from `acc` at point
`p` (helper for `coords2metres`). -/
def cumFrom {α β : Type} [Add β] (dist : α → α → β) (acc : β) (p : α) :
    List α → List β
  | [] => []
  | q :: rest => (acc + dist p q) :: cumFrom dist (acc + dist p q) q rest

/-- Modelled from the spec: the distance accumulator of section 4.4
(`coords2metres` in the notebook): element 0 is 0 and element i adds the
distance between coordinates i-1 and i to element i-1.  The metric is a
parameter; the specification's Euclidean metric is supplied in the theorem
statements. -/
def coords2metres {α β : Type} [Add β] [Zero β] (dist : α → α → β) :
    List α → List β
  | [] => []
  | p :: rest => 0 :: cumFrom dist 0 p rest

/-- Sum of successive distances along a path starting at `p` (the path
length; for a closed loop, its perimeter). -/
def segSum {α β : Type} [Add β] [Zero β] (dist : α → α → β) (p : α) :
    List α → β
  | [] => 0
  | q :: rest => dist p q + segSum dist q rest

/-- Modelled from the spec: failures of the point gridding engine of
section 4.5. -/
inductive GridErr where
  | invalidResolution : GridErr
  | invalidStep : GridErr
  | emptySelection : GridErr
deriving DecidableEq

/-- Modelled from the spec: the raster produced by the gridding engine —
its column and row counts, its cells (rows of optional values; `none` is
the no-data sentinel), and its affine geotransform (section 3,
"RasterGrid"). -/
structure Raster where
  cols : ℕ
  rows : ℕ
  cells : List (List (Option ℚ))
  geotransform : ℚ × ℚ × ℚ × ℚ × ℚ × ℚ
deriving DecidableEq

/-- Indices of the points selected by the optional bounds and the point
step: index i survives iff `i % step = 0` and, when bounds are given, the
spatial mask of section 4.2 is true at i (spec section 4.5). -/
def selectedIndices (d : PointDataset) (bnds : Option BoundingBox)
    (step : ℕ) : List ℕ :=
  (List.range d.coords.length).filter (fun i =>
    i % step == 0 &&
      (match bnds with
       | some b => (get_spatial_mask d b).getD i false
       | none => true))

/-- Values of a named attribute of a dataset (empty when absent). -/
def attrValues (d : PointDataset) (var : String) : List ℚ :=
  ((d.attributes.find? (fun a => a.1 == var)).map (fun a => a.2)).getD []

/-- Grid cell containing a point, by floor division of the offsets from the
box origin by the resolution (binning semantics, spec section 4.5). -/
def cellOf (b : BoundingBox) (res : ℚ) (p : ℚ × ℚ) : ℤ × ℤ :=
  (⌊(p.1 - b.xmin) / res⌋, ⌊(p.2 - b.ymin) / res⌋)

/-- Value assigned to a grid cell: the value of the first selected point
binned to it, `none` (no-data) when no point contributes (spec section
4.5). -/
def cellValue (pts : List ((ℚ × ℚ) × ℚ)) (b : BoundingBox) (res : ℚ)
    (col row : ℕ) : Option ℚ :=
  ((pts.filter (fun pv => decide (cellOf b res pv.1 = ((col : ℤ), (row : ℤ))))).head?).map
    (fun pv => pv.2)

/-- Grid dimensions (columns, rows) for a box at a resolution:
`ceil((xmax-xmin)/res) x ceil((ymax-ymin)/res)` (spec section 4.5). -/
def gridDims (b : BoundingBox) (res : ℚ) : ℕ × ℕ :=
  ((⌈(b.xmax - b.xmin) / res⌉).toNat, (⌈(b.ymax - b.ymin) / res⌉).toNat)

/-- Selected points paired with their values of the requested variable. -/
def selectedPoints (d : PointDataset) (var : String)
    (bnds : Option BoundingBox) (step : ℕ) : List ((ℚ × ℚ) × ℚ) :=
  (selectedIndices d bnds step).map
    (fun i => (d.coords.getD i (0, 0), (attrValues d var).getD i 0))

/-- Bounds effectively used by the gridding engine: the caller's bounds
when given, otherwise the full extent of the selected coordinates (spec
section 4.5). -/
def effectiveBounds (d : PointDataset) (bnds : Option BoundingBox)
    (step : ℕ) : BoundingBox :=
  match bnds with
  | some b => b
  | none => coordsExtent ((selectedIndices d none step).map
      (fun i => d.coords.getD i (0, 0)))

/-- Raster built by binning the selected points onto the effective bounds
at the requested resolution. -/
def builtRaster (d : PointDataset) (var : String) (res : ℚ)
    (bnds : Option BoundingBox) (step : ℕ) : Raster :=
  { cols := (gridDims (effectiveBounds d bnds step) res).1,
    rows := (gridDims (effectiveBounds d bnds step) res).2,
    cells := (List.range (gridDims (effectiveBounds d bnds step) res).2).map
      (fun row =>
        (List.range (gridDims (effectiveBounds d bnds step) res).1).map
          (fun col =>
            cellValue (selectedPoints d var bnds step)
              (effectiveBounds d bnds step) res col row)),
    geotransform := ((effectiveBounds d bnds step).xmin, res, 0,
      (effectiveBounds d bnds step).ymin, 0, res) }

/-- Modelled from the spec: the point gridding engine of section 4.5
(`utm_grid_points` in the notebook, with the coordinate reprojection
abstracted away: coordinates and bounds are taken in the gridding system).
Checks resolution and step, selects points by bounds and step, fails with
`EmptySelectionError` on an empty selection, and otherwise bins the
selected points onto a `ceil((xmax-xmin)/res) x ceil((ymax-ymin)/res)`
raster whose cells without contributing points hold the no-data sentinel. -/
def grid_points (d : PointDataset) (var : String) (res : ℚ)
    (bnds : Option BoundingBox) (step : ℕ) : Except GridErr Raster :=
  if res ≤ 0 then Except.error GridErr.invalidResolution
  else if step < 1 then Except.error GridErr.invalidStep
  else if selectedIndices d bnds step = [] then
    Except.error GridErr.emptySelection
  else Except.ok (builtRaster d var res bnds step)

/-- Disjointness of a query box from an extent box: the two rectangles
share no point (spec section 8, "bounds that do not intersect the
dataset's extent"). -/
def boxDisjoint (b e : BoundingBox) : Prop :=
  b.xmax < e.xmin ∨ e.xmax < b.xmin ∨ b.ymax < e.ymin ∨ e.ymax < b.ymin

instance (b e : BoundingBox) : Decidable (boxDisjoint b e) := by
  unfold boxDisjoint; infer_instance

/-- Demonstration dataset of spec section 8: points at line numbers
`[1,1,1,2,2]` with coordinates `[(0,0),(1,0),(2,0),(0,5),(1,5)]` and one
attribute. -/
def demoDataset : PointDataset :=
  { coords := [(0, 0), (1, 0), (2, 0), (0, 5), (1, 5)],
    attributes := [("elev", [10, 20, 30, 40, 50])],
    native := "A" }

/-- Line index of the demonstration dataset: line 1 is `[0,3)`, line 2 is
`[3,5)`. -/
def demoIndex : LineIndex := [(1, 0, 3), (2, 3, 5)]

lemma minQ_le_left (a b : ℚ) : minQ a b ≤ a := by
  unfold minQ; split
  · exact le_refl a
  · exact le_of_not_le (by assumption)

lemma minQ_le_right (a b : ℚ) : minQ a b ≤ b := by
  unfold minQ; split
  · assumption
  · exact le_refl b

lemma left_le_maxQ (a b : ℚ) : a ≤ maxQ a b := by
  unfold maxQ; split
  · assumption
  · exact le_refl a

lemma right_le_maxQ (a b : ℚ) : b ≤ maxQ a b := by
  unfold maxQ; split
  · exact le_refl b
  · exact le_of_not_le (by assumption)

lemma foldr_minQ_le_init {α : Type} (f : α → ℚ) (x : ℚ) (l : List α) :
    l.foldr (fun q m => minQ (f q) m) x ≤ x := by
  induction l with
  | nil => exact le_refl x
  | cons q t ih => exact le_trans (minQ_le_right _ _) ih

lemma foldr_minQ_le_mem {α : Type} (f : α → ℚ) (x : ℚ) {l : List α} {a : α}
    (h : a ∈ l) : l.foldr (fun q m => minQ (f q) m) x ≤ f a := by
  induction l with
  | nil => cases h
  | cons q t ih =>
    rcases List.mem_cons.mp h with rfl | ha
    · exact minQ_le_left _ _
    · exact le_trans (minQ_le_right _ _) (ih ha)

lemma init_le_foldr_maxQ {α : Type} (f : α → ℚ) (x : ℚ) (l : List α) :
    x ≤ l.foldr (fun q m => maxQ (f q) m) x := by
  induction l with
  | nil => exact le_refl x
  | cons q t ih => exact le_trans ih (right_le_maxQ _ _)

lemma mem_le_foldr_maxQ {α : Type} (f : α → ℚ) (x : ℚ) {l : List α} {a : α}
    (h : a ∈ l) : f a ≤ l.foldr (fun q m => maxQ (f q) m) x := by
  induction l with
  | nil => cases h
  | cons q t ih =>
    rcases List.mem_cons.mp h with rfl | ha
    · exact left_le_maxQ _ _
    · exact le_trans (ih ha) (right_le_maxQ _ _)

lemma coordsExtent_cons (q : ℚ × ℚ) (rest : List (ℚ × ℚ)) :
    coordsExtent (q :: rest) =
      ⟨rest.foldr (fun r m => minQ r.1 m) q.1,
       rest.foldr (fun r m => minQ r.2 m) q.2,
       rest.foldr (fun r m => maxQ r.1 m) q.1,
       rest.foldr (fun r m => maxQ r.2 m) q.2⟩ := rfl

lemma mem_coordsExtent {ps : List (ℚ × ℚ)} {p : ℚ × ℚ} (hp : p ∈ ps) :
    inBox (coordsExtent ps) p := by
  cases ps with
  | nil => cases hp
  | cons q rest =>
    rw [coordsExtent_cons]
    rcases List.mem_cons.mp hp with rfl | hr
    · exact ⟨foldr_minQ_le_init Prod.fst p.1 rest,
        init_le_foldr_maxQ Prod.fst p.1 rest,
        foldr_minQ_le_init Prod.snd p.2 rest,
        init_le_foldr_maxQ Prod.snd p.2 rest⟩
    · exact ⟨foldr_minQ_le_mem Prod.fst q.1 hr,
        mem_le_foldr_maxQ Prod.fst q.1 hr,
        foldr_minQ_le_mem Prod.snd q.2 hr,
        mem_le_foldr_maxQ Prod.snd q.2 hr⟩
lemma get_spatial_mask_length (d : PointDataset) (b : BoundingBox) :
    (get_spatial_mask d b).length = d.coords.length := by
  simp [get_spatial_mask]

lemma get_spatial_mask_getD (d : PointDataset) (b : BoundingBox) {i : ℕ}
    (h : i < d.coords.length) :
    (get_spatial_mask d b).getD i false = decide (inBox b (d.coords.getD i (0, 0))) := by
  unfold get_spatial_mask
  rw [List.getD_eq_getElem _ _ (by simpa using h), List.getElem_map,
    List.getD_eq_getElem _ _ h]

/-- C2: for every dataset and bounding box in the dataset's native system,
`get_spatial_mask` returns a boolean sequence of the dataset's length whose
entry i is true iff point i satisfies `xmin ≤ x ≤ xmax` and
`ymin ≤ y ≤ ymax`, inclusive on all four edges; when the box is the
dataset's full native extent the mask is all-true.  The model is a pure
function, so the dataset is not mutated. -/
theorem spatial_mask_correct (d : PointDataset) (b : BoundingBox) :
    (get_spatial_mask d b).length = d.coords.length
    ∧ (∀ i, i < d.coords.length →
        ((get_spatial_mask d b).getD i false = true ↔ inBox b (d.coords.getD i (0, 0))))
    ∧ (b = datasetExtent d → ∀ x ∈ get_spatial_mask d b, x = true) := by
  refine ⟨get_spatial_mask_length d b, fun i h => ?_, fun hb x hx => ?_⟩
  · rw [get_spatial_mask_getD d b h]; exact decide_eq_true_iff
  · subst hb
    rcases List.mem_map.mp hx with ⟨p, hp, rfl⟩
    exact decide_eq_true (mem_coordsExtent hp)

/-- Witness for C2: the index-0 characterisation on the demonstration
dataset with the box `(0,0,2,0)`, and the all-true mask at the full
extent. -/
theorem spatial_mask_correct_witness :
    ((get_spatial_mask demoDataset ⟨0, 0, 2, 0⟩).getD 0 false = true
      ↔ inBox ⟨0, 0, 2, 0⟩ (demoDataset.coords.getD 0 (0, 0)))
    ∧ (∀ x ∈ get_spatial_mask demoDataset (datasetExtent demoDataset), x = true) :=
  ⟨(spatial_mask_correct demoDataset ⟨0, 0, 2, 0⟩).2.1 0 (by decide),
   (spatial_mask_correct demoDataset (datasetExtent demoDataset)).2.2 rfl⟩

lemma equivalentSys_spec (resolve : String → Option String) {a b : String}
    (h : equivalentSys resolve a b = true) :
    ∃ ca cb, resolve a = some ca ∧ resolve b = some cb ∧ (ca == cb) = true := by
  unfold equivalentSys at h
  cases hra : resolve a with
  | none =>
    rw [hra] at h
    cases hrb : resolve b with
    | none => rw [hrb] at h; simp at h
    | some cb => rw [hrb] at h; simp at h
  | some ca =>
    rw [hra] at h
    cases hrb : resolve b with
    | none => rw [hrb] at h; simp at h
    | some cb => rw [hrb] at h; exact ⟨ca, cb, rfl, rfl, h⟩

lemma unresolved_target_passthrough (resolve : String → Option String)
    (proj : List ℚ → List ℚ) (coords : List (List ℚ)) (f t : String)
    (h : resolve t = none) :
    get_coordinate_transformation resolve proj f t = Except.ok none
    ∧ transform resolve proj coords f t = Except.ok coords := by
  have h1 : get_coordinate_transformation resolve proj f t = Except.ok none := by
    unfold get_coordinate_transformation
    rw [h]
  have h2 : transform resolve proj coords f t = Except.ok coords := by
    unfold transform
    rw [h1]
  exact ⟨h1, h2⟩

/-- Reference-system resolver used in the concrete witnesses: only the
system `"A"` resolves, canonically to `"cA"`. -/
def demoResolve : String → Option String :=
  fun s => if s = "A" then some "cA" else none

/-- Projection used in the concrete witnesses. -/
def demoProj : List ℚ → List ℚ := fun c => c.map (fun v => v + 1)

/-- C1 (code bug evidence): contrary to the claim and to spec section 7, a
transform request whose target reference system fails to resolve is given
the same `None` no-transform sentinel as an equivalent pair of systems
(`_crs_utils.py` lines 125-126, quoted in the notebook's traceback:
`if not to_spatial_ref or ... : return None`), so the input coordinates
are silently passed through unchanged and no `TransformError` is ever
reported.  Evaluated here at the concrete failing input: coordinates
`[[0,0]]` from `"A"` to the unresolvable `"B"`. -/
theorem transform_unresolved_target_silent_passthrough :
    demoResolve "B" = none
    ∧ get_coordinate_transformation demoResolve demoProj "A" "B" = Except.ok none
    ∧ transform demoResolve demoProj [[0, 0]] "A" "B" = Except.ok [[0, 0]]
    ∧ transform demoResolve demoProj [[0, 0]] "A" "B"
        ≠ Except.error TransformErr.transformError := by
  obtain ⟨h1, h2⟩ :=
    unresolved_target_passthrough demoResolve demoProj [[0, 0]] "A" "B" rfl
  refine ⟨rfl, h1, h2, ?_⟩
  rw [h2]
  exact fun hc => Except.noConfusion hc

/-- C3: for every coordinate sequence and every pair of equivalent
reference systems, `transform` returns the very input sequence (the
identity fast path, hence bit-identical output with no numerical error),
including the case where the target system is unspecified and defaults to
the dataset's native system. -/
theorem transform_identity_fast_path (resolve : String → Option String)
    (proj : List ℚ → List ℚ) (coords : List (List ℚ)) (a b : String)
    (h : equivalentSys resolve a b = true) :
    transform resolve proj coords a b = Except.ok coords
    ∧ transformToDefault resolve proj a coords a none = Except.ok coords := by
  obtain ⟨ca, cb, hca, hcb, hbeq⟩ := equivalentSys_spec resolve h
  constructor
  · have h1 : get_coordinate_transformation resolve proj a b = Except.ok none := by
      unfold get_coordinate_transformation
      rw [hcb, hca]
      simp [hbeq]
    unfold transform
    rw [h1]
  · have h1 : get_coordinate_transformation resolve proj a a = Except.ok none := by
      unfold get_coordinate_transformation
      rw [hca]
      simp
    have h2 : transformToDefault resolve proj a coords a none
        = transform resolve proj coords a a := rfl
    rw [h2]
    unfold transform
    rw [h1]

/-- Witness for C3: transforming from `"A"` to the equivalent `"A"`
(explicitly, and by defaulting an unspecified target to the native system)
returns the input unchanged. -/
theorem transform_identity_fast_path_witness :
    equivalentSys demoResolve "A" "A" = true
    ∧ (transform demoResolve demoProj [[0, 0]] "A" "A" = Except.ok [[0, 0]]
        ∧ transformToDefault demoResolve demoProj "A" [[0, 0]] "A" none
            = Except.ok [[0, 0]]) :=
  ⟨rfl, transform_identity_fast_path demoResolve demoProj [[0, 0]] "A" "A" rfl⟩

lemma cumFrom_length {α β : Type} [Add β] (dist : α → α → β) (acc : β)
    (p : α) (l : List α) : (cumFrom dist acc p l).length = l.length := by
  induction l generalizing acc p with
  | nil => rfl
  | cons q t ih => simp [cumFrom, ih]

lemma coords2metres_length {α β : Type} [Add β] [Zero β] (dist : α → α → β)
    (c : List α) : (coords2metres dist c).length = c.length := by
  cases c with
  | nil => rfl
  | cons p rest => simp [coords2metres, cumFrom_length]

lemma cumFrom_getD_succ {α β : Type} [Add β] (dist : α → α → β) (a₀ : α)
    (z : β) : ∀ (l : List α) (acc : β) (p : α) (i : ℕ), i + 1 < l.length →
      (cumFrom dist acc p l).getD (i + 1) z
        = (cumFrom dist acc p l).getD i z
          + dist (l.getD i a₀) (l.getD (i + 1) a₀) := by
  intro l
  induction l with
  | nil => intro acc p i h; simp at h
  | cons q t ih =>
    intro acc p i h
    cases i with
    | zero =>
      cases t with
      | nil => simp at h
      | cons q2 t2 =>
        simp [cumFrom, List.getD_cons_succ, List.getD_cons_zero]
    | succ i =>
      have h' : i + 1 < t.length := Nat.succ_lt_succ_iff.mp (by simpa using h)
      simp only [cumFrom, List.getD_cons_succ]
      exact ih (acc + dist p q) q i h'

lemma coords2metres_getD_succ {α β : Type} [AddMonoid β] (dist : α → α → β)
    (a₀ : α) (c : List α) (i : ℕ) (h : i + 1 < c.length) :
    (coords2metres dist c).getD (i + 1) 0
      = (coords2metres dist c).getD i 0
        + dist (c.getD i a₀) (c.getD (i + 1) a₀) := by
  cases c with
  | nil => simp at h
  | cons p rest =>
    cases i with
    | zero =>
      cases rest with
      | nil => simp at h
      | cons q t =>
        simp [coords2metres, cumFrom, List.getD_cons_succ, List.getD_cons_zero]
    | succ i =>
      have h' : i + 1 < rest.length := Nat.succ_lt_succ_iff.mp (by simpa using h)
      simp only [coords2metres, List.getD_cons_succ]
      exact cumFrom_getD_succ dist a₀ 0 rest 0 p i h'

lemma cumFrom_getLast? {α β : Type} [AddMonoid β] (dist : α → α → β) :
    ∀ (l : List α) (acc : β) (p : α), l ≠ [] →
      (cumFrom dist acc p l).getLast? = some (acc + segSum dist p l) := by
  intro l
  induction l with
  | nil => intro acc p h; exact absurd rfl h
  | cons q t ih =>
    intro acc p _
    cases t with
    | nil => simp [cumFrom, segSum]
    | cons q2 t2 =>
      have hstep : (cumFrom dist acc p (q :: q2 :: t2)).getLast?
          = (cumFrom dist (acc + dist p q) q (q2 :: t2)).getLast? := by
        show ((acc + dist p q) :: cumFrom dist (acc + dist p q) q (q2 :: t2)).getLast? = _
        rw [show cumFrom dist (acc + dist p q) q (q2 :: t2)
              = ((acc + dist p q) + dist q q2)
                  :: cumFrom dist ((acc + dist p q) + dist q q2) q2 t2 from rfl,
            List.getLast?_cons_cons]
      rw [hstep, ih (acc + dist p q) q (List.cons_ne_nil _ _)]
      simp [segSum, add_assoc]

lemma coords2metres_getLast? {α β : Type} [AddMonoid β] (dist : α → α → β)
    (p : α) (rest : List α) :
    (coords2metres dist (p :: rest)).getLast? = some (segSum dist p rest) := by
  cases rest with
  | nil => simp [coords2metres, cumFrom, segSum]
  | cons q t =>
    have h1 : (coords2metres dist (p :: q :: t)).getLast?
        = (cumFrom dist 0 p (q :: t)).getLast? := by
      show ((0 : β) :: cumFrom dist 0 p (q :: t)).getLast? = _
      rw [show cumFrom dist 0 p (q :: t)
            = ((0 : β) + dist p q) :: cumFrom dist ((0 : β) + dist p q) q t from rfl,
          List.getLast?_cons_cons]
    rw [h1, cumFrom_getLast? dist (q :: t) 0 p (List.cons_ne_nil _ _), zero_add]

/-- C4: for every non-empty coordinate sequence, `coords2metres` with the
Euclidean metric returns a sequence of the same length whose element 0 is
0, whose element i+1 adds the Euclidean distance between coordinates i and
i+1 to element i, which is `[0]` on a single-point input, and whose final
element is the total path length `segSum` (for a closed loop, its
perimeter). -/
theorem coords2metres_cumulative (dist : (ℝ × ℝ) → (ℝ × ℝ) → ℝ)
    (hdist : ∀ p q : ℝ × ℝ,
      dist p q = Real.sqrt ((q.1 - p.1) ^ 2 + (q.2 - p.2) ^ 2))
    (c : List (ℝ × ℝ)) (hne : c ≠ []) :
    (coords2metres dist c).length = c.length
    ∧ (coords2metres dist c).getD 0 0 = 0
    ∧ (∀ i, i + 1 < c.length →
        (coords2metres dist c).getD (i + 1) 0
          = (coords2metres dist c).getD i 0
            + Real.sqrt
                (((c.getD (i + 1) (0, 0)).1 - (c.getD i (0, 0)).1) ^ 2
                  + ((c.getD (i + 1) (0, 0)).2 - (c.getD i (0, 0)).2) ^ 2))
    ∧ (∀ p, c = [p] → coords2metres dist c = [0])
    ∧ (coords2metres dist c).getLast?
        = some (segSum dist (c.getD 0 (0, 0)) c.tail) := by
  refine ⟨coords2metres_length dist c, ?_, fun i h => ?_, fun p hp => ?_, ?_⟩
  · cases c with
    | nil => exact absurd rfl hne
    | cons p rest => rfl
  · rw [← hdist]
    exact coords2metres_getD_succ dist (0, 0) c i h
  · subst hp; rfl
  · cases c with
    | nil => exact absurd rfl hne
    | cons p rest => exact coords2metres_getLast? dist p rest

/-- Witness for C4: a single point at the origin under the Euclidean
metric yields the cumulative-distance sequence `[0]`. -/
theorem coords2metres_cumulative_witness :
    (∀ p q : ℝ × ℝ,
      (fun p q : ℝ × ℝ => Real.sqrt ((q.1 - p.1) ^ 2 + (q.2 - p.2) ^ 2)) p q
        = Real.sqrt ((q.1 - p.1) ^ 2 + (q.2 - p.2) ^ 2))
    ∧ ([((0 : ℝ), (0 : ℝ))] ≠ ([] : List (ℝ × ℝ)))
    ∧ coords2metres
        (fun p q : ℝ × ℝ => Real.sqrt ((q.1 - p.1) ^ 2 + (q.2 - p.2) ^ 2))
        [((0 : ℝ), (0 : ℝ))] = [0] :=
  ⟨fun p q => rfl, List.cons_ne_nil _ _,
   (coords2metres_cumulative _ (fun p q => rfl) [((0 : ℝ), (0 : ℝ))]
      (List.cons_ne_nil _ _)).2.2.2.1 ((0 : ℝ), (0 : ℝ)) rfl⟩

lemma mem_presentSorted (idx : LineIndex) (arg : LineNumbersArg) (n : ℤ) :
    n ∈ presentSorted idx arg
      ↔ n ∈ requestedNumbers idx arg ∧ n ∈ lineKeys idx := by
  unfold presentSorted
  rw [List.mem_insertionSort, List.mem_dedup, List.mem_filter]
  simp

lemma presentSorted_sorted_le (idx : LineIndex) (arg : LineNumbersArg) :
    (presentSorted idx arg).Sorted (fun a b => a ≤ b) :=
  List.sorted_insertionSort _ _

lemma presentSorted_nodup (idx : LineIndex) (arg : LineNumbersArg) :
    (presentSorted idx arg).Nodup := by
  unfold presentSorted
  exact ((List.perm_insertionSort _ _).nodup_iff).mpr (List.nodup_dedup _)

lemma presentSorted_sorted_lt (idx : LineIndex) (arg : LineNumbersArg) :
    (presentSorted idx arg).Sorted (fun a b => a < b) :=
  (presentSorted_sorted_le idx arg).lt_of_le (presentSorted_nodup idx arg)

lemma presentSorted_perm_inv (idx : LineIndex) {r1 r2 : List ℤ}
    (h : r1.Perm r2) :
    presentSorted idx (LineNumbersArg.list r1)
      = presentSorted idx (LineNumbersArg.list r2) := by
  unfold presentSorted
  refine List.eq_of_perm_of_sorted ?_ (List.sorted_insertionSort _ _)
    (List.sorted_insertionSort _ _)
  exact (List.perm_insertionSort _ _).trans
    (((h.filter _).dedup).trans (List.perm_insertionSort _ _).symm)

lemma get_line_masks_map_fst (d : PointDataset) (idx : LineIndex)
    (arg : LineNumbersArg) :
    (get_line_masks d idx arg).map Prod.fst = presentSorted idx arg := by
  unfold get_line_masks
  rw [List.map_map]
  have hcomp : (Prod.fst ∘ fun n : ℤ =>
      (n, lineMask d.coords.length ((rangeOf idx n).getD (0, 0)))) = id := rfl
  rw [hcomp, List.map_id]

/-- C7: a request made only of line numbers absent from the index yields an
empty result from both `get_line_masks` and `get_lines`; the functions are
total, so no error is raised. -/
theorem unknown_line_numbers_yield_nothing (d : PointDataset)
    (idx : LineIndex) (req : List ℤ) (h : ∀ n ∈ req, n ∉ lineKeys idx) :
    get_line_masks d idx (LineNumbersArg.list req) = []
    ∧ get_lines d idx (LineNumbersArg.list req) = [] := by
  have hp : presentSorted idx (LineNumbersArg.list req) = [] := by
    unfold presentSorted
    have hf : (requestedNumbers idx (LineNumbersArg.list req)).filter
        (fun n => decide (n ∈ lineKeys idx)) = [] := by
      rw [List.filter_eq_nil_iff]
      intro a ha
      simp [h a ha]
    rw [hf]
    rfl
  unfold get_line_masks get_lines
  rw [hp]
  exact ⟨rfl, rfl⟩

/-- Witness for C7: requesting only the unknown line number 999 on the
demonstration index yields empty results. -/
theorem unknown_line_numbers_yield_nothing_witness :
    (∀ n ∈ ([999] : List ℤ), n ∉ lineKeys demoIndex)
    ∧ (get_line_masks demoDataset demoIndex (LineNumbersArg.list [999]) = []
        ∧ get_lines demoDataset demoIndex (LineNumbersArg.list [999]) = []) :=
  ⟨by decide,
   unknown_line_numbers_yield_nothing demoDataset demoIndex [999] (by decide)⟩

/-- C8: `get_line_masks` produces exactly one pair per requested line
number that exists in the index (membership plus no duplicates), in
strictly ascending line-number order, independently of the order of the
request, and the unspecified-request form equals the request of all indexed
lines.  The result is a `List`, hence finite and restartable. -/
theorem line_masks_ordered_complete (d : PointDataset) (idx : LineIndex)
    (req : List ℤ) :
    (∀ n, n ∈ (get_line_masks d idx (LineNumbersArg.list req)).map Prod.fst
        ↔ n ∈ req ∧ n ∈ lineKeys idx)
    ∧ ((get_line_masks d idx (LineNumbersArg.list req)).map Prod.fst).Nodup
    ∧ ((get_line_masks d idx (LineNumbersArg.list req)).map Prod.fst).Sorted
        (fun a b => a < b)
    ∧ (∀ req2, req.Perm req2 →
        get_line_masks d idx (LineNumbersArg.list req2)
          = get_line_masks d idx (LineNumbersArg.list req))
    ∧ get_line_masks d idx LineNumbersArg.all
        = get_line_masks d idx (LineNumbersArg.list (lineKeys idx)) := by
  refine ⟨fun n => ?_, ?_, ?_, fun req2 h => ?_, rfl⟩
  · rw [get_line_masks_map_fst]
    simpa [requestedNumbers] using mem_presentSorted idx (LineNumbersArg.list req) n
  · rw [get_line_masks_map_fst]
    exact presentSorted_nodup idx _
  · rw [get_line_masks_map_fst]
    exact presentSorted_sorted_lt idx _
  · unfold get_line_masks
    rw [← presentSorted_perm_inv idx h]

/-- Witness for C8: requesting `[2,1]` and its permutation `[1,2]` on the
demonstration dataset produces the same result list. -/
theorem line_masks_ordered_complete_witness :
    ([2, 1] : List ℤ).Perm [1, 2]
    ∧ get_line_masks demoDataset demoIndex (LineNumbersArg.list [1, 2])
        = get_line_masks demoDataset demoIndex (LineNumbersArg.list [2, 1]) :=
  ⟨by decide,
   (line_masks_ordered_complete demoDataset demoIndex [2, 1]).2.2.2.1 [1, 2]
     (by decide)⟩

/-- C10: the `line_numbers` argument accepts a single scalar line number as
well as a list: a scalar request behaves exactly like the singleton-list
request, for `get_lines` and `get_line_masks` alike, and for an indexed
line number yields exactly one `(line_number, record)` entry. -/
theorem scalar_line_number_accepted (d : PointDataset) (idx : LineIndex)
    (n : ℤ) :
    get_lines d idx (LineNumbersArg.scalar n)
        = get_lines d idx (LineNumbersArg.list [n])
    ∧ get_line_masks d idx (LineNumbersArg.scalar n)
        = get_line_masks d idx (LineNumbersArg.list [n])
    ∧ (n ∈ lineKeys idx →
        ∃ rec, get_lines d idx (LineNumbersArg.scalar n) = [(n, rec)]) := by
  refine ⟨rfl, rfl, fun hn => ?_⟩
  have hps : presentSorted idx (LineNumbersArg.scalar n) = [n] := by
    unfold presentSorted
    have h1 : (requestedNumbers idx (LineNumbersArg.scalar n)).filter
        (fun m => decide (m ∈ lineKeys idx)) = [n] := by
      show ([n].filter _) = [n]
      simp [hn]
    rw [h1, List.dedup_cons_of_not_mem (List.not_mem_nil n), List.dedup_nil]
    rfl
  unfold get_lines
  rw [hps]
  exact ⟨sliceRecord d ((rangeOf idx n).getD (0, 0)), rfl⟩

/-- Witness for C10: line 1 of the demonstration index requested as a
scalar yields exactly one entry. -/
theorem scalar_line_number_accepted_witness :
    (1 : ℤ) ∈ lineKeys demoIndex
    ∧ ∃ rec, get_lines demoDataset demoIndex (LineNumbersArg.scalar 1)
        = [(1, rec)] :=
  ⟨by decide,
   (scalar_line_number_accepted demoDataset demoIndex 1).2.2 (by decide)⟩

lemma grid_points_shape (d : PointDataset) (var : String) (res : ℚ)
    (b : BoundingBox) (step : ℕ) (hres : 0 < res) (hstep : 1 ≤ step)
    (hsel : selectedIndices d (some b) step ≠ []) :
    ∃ r, grid_points d var res (some b) step = Except.ok r
      ∧ r.cols = (⌈(b.xmax - b.xmin) / res⌉).toNat
      ∧ r.rows = (⌈(b.ymax - b.ymin) / res⌉).toNat := by
  unfold grid_points
  rw [if_neg (not_le.mpr hres), if_neg (Nat.not_lt.mpr hstep), if_neg hsel]
  exact ⟨builtRaster d var res (some b) step, rfl, rfl, rfl⟩

lemma grid_points_empty_error (d : PointDataset) (var : String) (res : ℚ)
    (bnds : Option BoundingBox) (step : ℕ) (hres : 0 < res)
    (hstep : 1 ≤ step) (hsel : selectedIndices d bnds step = []) :
    grid_points d var res bnds step = Except.error GridErr.emptySelection := by
  unfold grid_points
  rw [if_neg (not_le.mpr hres), if_neg (Nat.not_lt.mpr hstep), if_pos hsel]

lemma getD_false_of_all_false {m : List Bool} (h : ∀ x ∈ m, x = false)
    (i : ℕ) : m.getD i false = false := by
  induction m generalizing i with
  | nil => simp [List.getD_nil]
  | cons x t ih =>
    cases i with
    | zero => simpa using h x (by simp)
    | succ i =>
      rw [List.getD_cons_succ]
      exact ih (fun y hy => h y (by simp [hy])) i

lemma mask_all_false_of_disjoint (d : PointDataset) (b : BoundingBox)
    (hd : boxDisjoint b (datasetExtent d)) :
    ∀ x ∈ get_spatial_mask d b, x = false := by
  intro x hx
  rcases List.mem_map.mp hx with ⟨p, hp, rfl⟩
  have hin : inBox (datasetExtent d) p := mem_coordsExtent hp
  apply decide_eq_false
  intro hby
  obtain ⟨hb1, hb2, hb3, hb4⟩ := hby
  obtain ⟨he1, he2, he3, he4⟩ := hin
  rcases hd with h | h | h | h <;> linarith

lemma selected_empty_of_mask_false (d : PointDataset) (b : BoundingBox)
    (step : ℕ) (h : ∀ x ∈ get_spatial_mask d b, x = false) :
    selectedIndices d (some b) step = [] := by
  unfold selectedIndices
  rw [List.filter_eq_nil_iff]
  intro i _
  have hf : (get_spatial_mask d b).getD i false = false :=
    getD_false_of_all_false h i
  rw [List.getD_eq_getElem?_getD] at hf
  simp [hf]

/-- C6: a gridding request whose bounds and point step select zero points
fails with `EmptySelectionError` rather than returning a raster; and for
bounds disjoint from the dataset's extent the spatial mask is all-false,
so gridding with those bounds fails with `EmptySelectionError`. -/
theorem empty_selection_errors (d : PointDataset) (var : String) (res : ℚ)
    (b : BoundingBox) (step : ℕ) :
    (0 < res → 1 ≤ step → selectedIndices d (some b) step = [] →
      grid_points d var res (some b) step
        = Except.error GridErr.emptySelection)
    ∧ (boxDisjoint b (datasetExtent d) →
        (∀ x ∈ get_spatial_mask d b, x = false)
        ∧ (0 < res → 1 ≤ step →
            grid_points d var res (some b) step
              = Except.error GridErr.emptySelection)) := by
  refine ⟨fun hres hstep hsel =>
    grid_points_empty_error d var res (some b) step hres hstep hsel,
    fun hd => ?_⟩
  have hmask := mask_all_false_of_disjoint d b hd
  exact ⟨hmask, fun hres hstep =>
    grid_points_empty_error d var res (some b) step hres hstep
      (selected_empty_of_mask_false d b step hmask)⟩

/-- Witness for C6: the box `(10,10,11,11)` is disjoint from the
demonstration dataset's extent `(0,0,2,5)`; its mask is all-false and
gridding it fails with `EmptySelectionError`. -/
theorem empty_selection_errors_witness :
    boxDisjoint ⟨10, 10, 11, 11⟩ (datasetExtent demoDataset)
    ∧ (∀ x ∈ get_spatial_mask demoDataset ⟨10, 10, 11, 11⟩, x = false)
    ∧ grid_points demoDataset "elev" 1 (some ⟨10, 10, 11, 11⟩) 1
        = Except.error GridErr.emptySelection :=
  ⟨by decide,
   ((empty_selection_errors demoDataset "elev" 1 ⟨10, 10, 11, 11⟩ 1).2
      (by decide)).1,
   ((empty_selection_errors demoDataset "elev" 1 ⟨10, 10, 11, 11⟩ 1).2
      (by decide)).2 (by decide) (le_refl 1)⟩

/-- Counterexample for C5 as stated: on the specification's own scenario —
resolution 1.0, bounds `(0,0,2,0)`, the three points of line 1 selected —
the raster returned by the gridding engine has `ceil((0-0)/1) = 0` rows,
not height 1. -/
theorem grid_scenario_height_not_one :
    (grid_points demoDataset "elev" 1 (some ⟨0, 0, 2, 0⟩) 1).toOption.map
      Raster.rows ≠ some 1 := by
  obtain ⟨r, hok, _, hr⟩ := grid_points_shape demoDataset "elev" 1
    ⟨0, 0, 2, 0⟩ 1 (by decide) (le_refl 1) (by decide)
  rw [hok]
  have hr0 : r.rows = 0 := by
    rw [hr]
    show (⌈((0 : ℚ) - 0) / 1⌉).toNat = 0
    have hceil : ⌈((0 : ℚ) - 0) / 1⌉ = 0 := by norm_num
    rw [hceil]
    rfl
  simp [Except.toOption, hr0]

/-- C5 (amended): a gridding request with positive resolution, positive
step and a non-empty selection returns a raster of exactly
`ceil((xmax-xmin)/res)` columns and `ceil((ymax-ymin)/res)` rows; on the
specification's scenario (resolution 1.0, bounds `(0,0,2,0)`) this ceil
rule gives width 2 and height 0. -/
theorem grid_dimensions_ceil (d : PointDataset) (var : String) (res : ℚ)
    (b : BoundingBox) (step : ℕ) (hres : 0 < res) (hstep : 1 ≤ step)
    (hsel : selectedIndices d (some b) step ≠ []) :
    (∃ r, grid_points d var res (some b) step = Except.ok r
      ∧ r.cols = (⌈(b.xmax - b.xmin) / res⌉).toNat
      ∧ r.rows = (⌈(b.ymax - b.ymin) / res⌉).toNat)
    ∧ (grid_points demoDataset "elev" 1 (some ⟨0, 0, 2, 0⟩) 1).toOption.map
        Raster.cols = some 2
    ∧ (grid_points demoDataset "elev" 1 (some ⟨0, 0, 2, 0⟩) 1).toOption.map
        Raster.rows = some 0 := by
  refine ⟨grid_points_shape d var res b step hres hstep hsel, ?_, ?_⟩ <;>
  · obtain ⟨r, hok, hc, hr⟩ := grid_points_shape demoDataset "elev" 1
      ⟨0, 0, 2, 0⟩ 1 (by decide) (le_refl 1) (by decide)
    rw [hok]
    have hc2 : r.cols = 2 := by
      rw [hc]
      show (⌈((2 : ℚ) - 0) / 1⌉).toNat = 2
      have hceil : ⌈((2 : ℚ) - 0) / 1⌉ = 2 := by norm_num
      rw [hceil]
      rfl
    have hr0 : r.rows = 0 := by
      rw [hr]
      show (⌈((0 : ℚ) - 0) / 1⌉).toNat = 0
      have hceil : ⌈((0 : ℚ) - 0) / 1⌉ = 0 := by norm_num
      rw [hceil]
      rfl
    simp [Except.toOption, hc2, hr0]

/-- Witness for C5 (amended): the scenario request itself satisfies the
hypotheses, and the general ceil rule applies to it. -/
theorem grid_dimensions_ceil_witness :
    ((0 : ℚ) < 1 ∧ 1 ≤ 1
      ∧ selectedIndices demoDataset (some ⟨0, 0, 2, 0⟩) 1 ≠ [])
    ∧ (∃ r, grid_points demoDataset "elev" 1 (some ⟨0, 0, 2, 0⟩) 1
        = Except.ok r
      ∧ r.cols = (⌈(((⟨0, 0, 2, 0⟩ : BoundingBox)).xmax
          - ((⟨0, 0, 2, 0⟩ : BoundingBox)).xmin) / 1⌉).toNat
      ∧ r.rows = (⌈(((⟨0, 0, 2, 0⟩ : BoundingBox)).ymax
          - ((⟨0, 0, 2, 0⟩ : BoundingBox)).ymin) / 1⌉).toNat) :=
  ⟨⟨by decide, le_refl 1, by decide⟩,
   (grid_dimensions_ceil demoDataset "elev" 1 ⟨0, 0, 2, 0⟩ 1 (by decide)
      (le_refl 1) (by decide)).1⟩
